import Mathlib

/-!
Verification development for the python-terraform command-construction and
execution layer (src/python_terraform/terraform.py).

The embedding is shallow. Pure Python functions become Lean functions;
the stateful parts (temp variable files, the on-disk file set, the spawned
child process) become explicit state passing:

* `OptionValue` is the closed variant of values a keyword option can hold
  (the dynamic types inspected by `Terraform.generate_cmd_string`).
* `VariableFiles` mirrors the class of the same name: it tracks the temp
  files created during one invocation.  A temp file path is modelled as a
  sequence number (`Nat`); the JSON payload written with `json.dumps` is
  modelled at the parsed level by the `content` field, so "the file content
  parsed as JSON" is exactly `content`.
* `FS` models the relevant slice of the filesystem: which temp-file names
  currently exist on disk, plus the fresh-name counter of `tempfile`.
* `Exec` models the outside world of one child-process invocation: whether
  `subprocess.Popen` raises (e.g. the binary is missing), whether
  `communicate` raises, the returncode (an `Int`: Python returncodes are
  negative when the child is killed by a signal), the captured streams, and
  whether the state-reload collaborator (`read_state_file`, whose
  `Tfstate.load_file` parses persisted JSON) raises.
* `Terraform.cmd` is the synchronous/asynchronous execution protocol of the
  method of the same name, returning the Python outcome (returned tuple or
  raised exception) together with the side-effect trace: how many times the
  state-reload collaborator and `clean_up` were invoked, the final tracked
  file list, and the token list handed to `Popen`.
-/

/-- Closed variant of the values `generate_cmd_string` inspects dynamically:
the two flag sentinels `IsFlagged`/`IsNotFlagged`, Python `None`, booleans,
scalar strings, lists of scalars, and string-keyed dict values. -/
inductive OptionValue where
  | flagged
  | notFlagged
  | pyNone
  | bool (b : Bool)
  | str (s : String)
  | list (l : List String)
  | dict (m : List (String × String))
deriving DecidableEq

/-- One temp variable file: its path (modelled as a sequence number) and the
JSON object written into it (`json.dumps(variables)`), kept at the parsed
level. -/
structure TempFile where
  name : Nat
  content : List (String × String)
deriving DecidableEq

/-- The `VariableFiles` tracker: `self.files`, the temp files created since
the last cleanup. -/
structure VariableFiles where
  files : List TempFile
deriving DecidableEq

/-- The filesystem slice the tracker touches: the set of temp-file names
present on disk and the fresh-name counter of `tempfile`. -/
structure FS where
  disk : List Nat
  nextName : Nat
deriving DecidableEq

/-- Outcome of `VariableFiles.clean_up`: either every tracked file was
unlinked and the tracking list cleared, or `os.unlink` raised on a missing
file, in which case the loop stops, the files unlinked so far stay removed,
and the tracking list is left as it was (the clearing assignment is never
reached). -/
inductive CleanupResult where
  | ok (vf : VariableFiles) (fs : FS)
  | raised (msg : String) (vf : VariableFiles) (fs : FS)
deriving DecidableEq

/-- The Python exceptions the modelled layer can raise. -/
inductive PyError where
  | terraformCommandError (retCode : Int) (cmd : String) (out : Option String) (err : Option String)
  | valueError (msg : String)
  | pyException (msg : String)
deriving DecidableEq

/-- The three mutually exclusive capture modes of `Terraform.cmd`:
`capture_output is True` pipes both streams, the string value `framework`
leaves them as `None`, anything else inherits the ambient stdout/stderr. -/
inductive CaptureMode where
  | capture
  | framework
  | inherit
deriving DecidableEq

/-- What one invocation returns to Python: the `(ret_code, out, err)` tuple,
or a raised exception. -/
inductive PyOutcome where
  | returns (ret : Option Int) (out : Option String) (err : Option String)
  | raises (e : PyError)
deriving DecidableEq

/-- The outside world of one child-process run (everything `cmd` observes
but does not compute). `retCode` is an `Int` because `Popen.returncode` is
negative when the child is terminated by a signal. -/
structure Exec where
  spawnFails : Bool
  commFails : Bool
  retCode : Int
  outBytes : String
  errBytes : String
  stateReadFails : Bool
  diskState : Nat
deriving DecidableEq

/-- The fields of the `Terraform` wrapper object that the modelled methods
read. The default-option fields are stored as the `OptionValue` they
contribute to `_generate_default_options`; `vars` models the Python
attribute of the instance that feeds the `var` default option. -/
structure Terraform where
  terraform_bin_path : String
  state : OptionValue
  targets : OptionValue
  vars : OptionValue
  parallelism : OptionValue
  var_file : OptionValue
  tfstate : Option Nat
  temp_var_files : VariableFiles
deriving DecidableEq

/-- Result of one `Terraform.cmd` call: the Python outcome plus the
side-effect trace of the invocation. `spawned` is the token list handed to
`subprocess.Popen` (`none` when argument generation raised before spawning);
`readStateCalls` counts invocations of the state-reload collaborator
`read_state_file`; `cleanUpCalls` counts invocations of
`temp_var_files.clean_up`. -/
structure CmdResult where
  result : PyOutcome
  tfstate : Option Nat
  vf : VariableFiles
  fs : FS
  spawned : Option (List String)
  readStateCalls : Nat
  cleanUpCalls : Nat
deriving DecidableEq

/-- Python `str.split()` restricted to spaces: split on runs of spaces and
drop empty fields. Accumulates the current word reversed. -/
def pySplitGo : List Char → List Char → List String
  | [], cur => if cur.isEmpty then [] else [⟨cur.reverse⟩]
  | c :: rest, cur =>
    if c = ' ' then
      if cur.isEmpty then pySplitGo rest [] else ⟨cur.reverse⟩ :: pySplitGo rest []
    else
      pySplitGo rest (c :: cur)

/-- Python `cmd.split()` as used on the command string. -/
def pySplit (s : String) : List String :=
  pySplitGo s.toList []

/-- Python `option.replace("_", "-")`: every underscore becomes a dash (the
`if "_" in option` guard in the source is redundant). -/
def normalizeOption (s : String) : String :=
  ⟨s.toList.map (fun c => if c = '_' then '-' else c)⟩

/-- Whether the first list is a prefix of the second (Boolean). -/
def listPrefixEq : List Char → List Char → Bool
  | [], _ => true
  | _ :: _, [] => false
  | a :: as, b :: bs => a = b && listPrefixEq as bs

/-- Python `pat in s` substring test, on character lists. -/
def containsSub (pat : List Char) : List Char → Bool
  | [] => listPrefixEq pat []
  | c :: rest => listPrefixEq pat (c :: rest) || containsSub pat rest

/-- Python `" ".join(cmds)`. -/
def joinSpace : List String → String
  | [] => ""
  | [s] => s
  | s :: rest => s ++ " " ++ joinSpace rest

/-- Python `s.lstrip()` restricted to whitespace characters. -/
def pyLstrip (s : String) : String :=
  ⟨s.toList.dropWhile (fun c => c.isWhitespace)⟩

/-- A single-quote character, for Python `str(dict)` rendering. -/
def pyQuote : String :=
  String.singleton (Char.ofNat 39)

/-- Python `str` of a string-to-string dict, as interpolated by the final
`f"-\x7boption\x7d=\x7bvalue\x7d"` branch when a dict value matches neither
the backend-config nor the var special case. -/
def pyReprDict (m : List (String × String)) : String :=
  "\x7b" ++ String.intercalate ", "
      (m.map (fun kv => pyQuote ++ kv.1 ++ pyQuote ++ ": " ++ pyQuote ++ kv.2 ++ pyQuote))
    ++ "\x7d"

/-- Python truthiness of the `ret` component (an `Optional[int]`): `None`
and `0` are falsy. -/
def pyTruthyOptInt : Option Int → Bool
  | none => false
  | some n => n != 0

/-- The tracked temp-file names, in creation order. -/
@[reducible]
def VariableFiles.tracked (vf : VariableFiles) : List Nat :=
  vf.files.map TempFile.name

/-- `VariableFiles.create`: `NamedTemporaryFile(delete=False)` makes a fresh
file on disk, the handle is appended to `self.files`, `json.dumps(variables)`
is written into it, and the path is returned. -/
def VariableFiles.create (vf : VariableFiles) (fs : FS) (vs : List (String × String)) :
    VariableFiles × FS × Nat :=
  let name := fs.nextName
  (⟨vf.files ++ [⟨name, vs⟩]⟩, ⟨fs.disk ++ [name], name + 1⟩, name)

/-- The unlink loop of `clean_up`: `os.unlink(f.name)` for each tracked file
in order. Unlinking a name not on disk raises `FileNotFoundError`, stopping
the loop; on error the disk state reached so far is reported. -/
def VariableFiles.cleanUpAux : List TempFile → FS → Except (String × FS) FS
  | [], fs => Except.ok fs
  | f :: rest, fs =>
    if f.name ∈ fs.disk then
      VariableFiles.cleanUpAux rest ⟨fs.disk.erase f.name, fs.nextName⟩
    else
      Except.error ("FileNotFoundError", fs)

/-- `VariableFiles.clean_up`: unlink every tracked file, then clear
`self.files`. If an unlink raises, the clearing assignment is never reached,
so the tracking list survives the exception. -/
def VariableFiles.clean_up (vf : VariableFiles) (fs : FS) : CleanupResult :=
  match VariableFiles.cleanUpAux vf.files fs with
  | Except.ok fs2 => CleanupResult.ok ⟨[]⟩ fs2
  | Except.error (msg, fs2) => CleanupResult.raised msg vf fs2

/-- The module-level compound-command set `COMMAND_WITH_SUBCOMMANDS`. -/
def COMMAND_WITH_SUBCOMMANDS : List String :=
  ["workspace"]

/-- The body of the option loop of `generate_cmd_string` for one
`option, value` pair, in source order: list values expand element-wise;
dict values are backend-config maps, var maps (non-empty ones materialize a
temp file), or fall through to generic stringification; then the `IsFlagged`
sentinel, skipped values, booleans, and plain scalars. -/
def encodeOption (vf : VariableFiles) (fs : FS) (name : String) (value : OptionValue) :
    VariableFiles × FS × List String :=
  let option := normalizeOption name
  match value with
  | OptionValue.list l =>
      (vf, fs, l.map (fun v => "-" ++ option ++ "=" ++ v))
  | OptionValue.dict m =>
      if containsSub "backend-config".toList option.toList then
        (vf, fs, m.map (fun kv => "-backend-config=" ++ kv.1 ++ "=" ++ kv.2))
      else if option = "var" then
        match m with
        | [] => (vf, fs, [])
        | _ :: _ =>
          match VariableFiles.create vf fs m with
          | (vf2, fs2, filename) => (vf2, fs2, ["-var-file=" ++ toString filename])
      else
        (vf, fs, ["-" ++ option ++ "=" ++ pyReprDict m])
  | OptionValue.flagged => (vf, fs, ["-" ++ option])
  | OptionValue.pyNone => (vf, fs, [])
  | OptionValue.notFlagged => (vf, fs, [])
  | OptionValue.bool b =>
      (vf, fs, ["-" ++ option ++ "=" ++ (if b then "true" else "false")])
  | OptionValue.str s => (vf, fs, ["-" ++ option ++ "=" ++ s])

/-- The option loop of `generate_cmd_string` over the kwargs mapping in
insertion order, threading the temp-file state and concatenating the emitted
tokens. -/
def encodeOptions (vf : VariableFiles) (fs : FS) :
    List (String × OptionValue) → VariableFiles × FS × List String
  | [] => (vf, fs, [])
  | (k, v) :: rest =>
    match encodeOption vf fs k v with
    | (vf1, fs1, toks) =>
      match encodeOptions vf1 fs1 rest with
      | (vf2, fs2, more) => (vf2, fs2, toks ++ more)

/-- `Terraform.generate_cmd_string`: binary path, the space-split command,
the spliced sub-command for compound commands (popping the first positional
argument; popping from an empty list raises `IndexError`), the encoded
options, then the remaining positional arguments. -/
def generate_cmd_string (bin cmdStr : String) (args : List String)
    (kwargs : List (String × OptionValue)) (vf : VariableFiles) (fs : FS) :
    Except String (List String × VariableFiles × FS) :=
  let cmds := bin :: pySplit cmdStr
  if COMMAND_WITH_SUBCOMMANDS.contains cmdStr then
    match args with
    | [] => Except.error "IndexError: pop from empty list"
    | subcommand :: args2 =>
      match encodeOptions vf fs kwargs with
      | (vf2, fs2, opts) => Except.ok ((cmds ++ [subcommand]) ++ opts ++ args2, vf2, fs2)
  else
    match encodeOptions vf fs kwargs with
    | (vf2, fs2, opts) => Except.ok (cmds ++ opts ++ args, vf2, fs2)

/-- `Terraform.cmd`. Control flow of the source, in order: build the token
list (temp var files are created here), spawn the child (`Popen` may raise,
e.g. `FileNotFoundError` when the binary is missing), return the all-`None`
tuple immediately when not synchronous, wait (`communicate` may raise), on
returncode `0` invoke the state-reload collaborator (its JSON parsing may
raise), then `clean_up`, then decode the captured streams, then either raise
`TerraformCommandError` (returncode strictly positive and `raise_on_error`)
or return the tuple. -/
def Terraform.cmd (t : Terraform) (fs : FS) (env : Exec) (cmdStr : String)
    (args : List String) (kwargs : List (String × OptionValue))
    (capture_output : CaptureMode) (raise_on_error : Bool) (synchronous : Bool) : CmdResult :=
  match generate_cmd_string t.terraform_bin_path cmdStr args kwargs t.temp_var_files fs with
  | Except.error e =>
      ⟨PyOutcome.raises (PyError.pyException e), t.tfstate, t.temp_var_files, fs, none, 0, 0⟩
  | Except.ok (cmds, vf1, fs1) =>
      if env.spawnFails then
        ⟨PyOutcome.raises (PyError.pyException "FileNotFoundError: spawn failed"),
          t.tfstate, vf1, fs1, some cmds, 0, 0⟩
      else if !synchronous then
        ⟨PyOutcome.returns none none none, t.tfstate, vf1, fs1, some cmds, 0, 0⟩
      else if env.commFails then
        ⟨PyOutcome.raises (PyError.pyException "exception while waiting"),
          t.tfstate, vf1, fs1, some cmds, 0, 0⟩
      else if env.retCode = 0 ∧ env.stateReadFails = true then
        ⟨PyOutcome.raises (PyError.pyException "StateReadError"),
          t.tfstate, vf1, fs1, some cmds, 1, 0⟩
      else
        let readCalls : Nat := if env.retCode = 0 then 1 else 0
        let tfs : Option Nat := if env.retCode = 0 then some env.diskState else t.tfstate
        match VariableFiles.clean_up vf1 fs1 with
        | CleanupResult.raised msg vf2 fs2 =>
            ⟨PyOutcome.raises (PyError.pyException msg), tfs, vf2, fs2, some cmds, readCalls, 1⟩
        | CleanupResult.ok vf2 fs2 =>
            let out : Option String :=
              if capture_output = CaptureMode.capture then some env.outBytes else none
            let err : Option String :=
              if capture_output = CaptureMode.capture then some env.errBytes else none
            if 0 < env.retCode ∧ raise_on_error = true then
              ⟨PyOutcome.raises
                  (PyError.terraformCommandError env.retCode (joinSpace cmds) out err),
                tfs, vf2, fs2, some cmds, readCalls, 1⟩
            else
              ⟨PyOutcome.returns (some env.retCode) out err, tfs, vf2, fs2,
                some cmds, readCalls, 1⟩

/-- Python dict assignment `d[k] = v`: replace in place when the key exists,
append otherwise. -/
def dictSet : List (String × OptionValue) → String → OptionValue → List (String × OptionValue)
  | [], k, v => [(k, v)]
  | (k1, v1) :: rest, k, v =>
    if k1 = k then (k1, v) :: rest else (k1, v1) :: dictSet rest k v

/-- Folding dict assignments: the semantics of `\x7b**base, **extras\x7d`
and of `base.update(extras)`. -/
def dictMerge (base : List (String × OptionValue)) (extras : List (String × OptionValue)) :
    List (String × OptionValue) :=
  extras.foldl (fun d kv => dictSet d kv.1 kv.2) base

/-- What one invocation of the `output` shim returns to Python. -/
inductive OutputOutcome where
  | returnsNone
  | returnsJson (raw : String)
  | raises (e : PyError)
deriving DecidableEq

/-- `Terraform.output`: force `-json`, fail fast with `ValueError` when
capture is disabled, delegate to `cmd("output", ...)` (through the
`output_cmd` attribute wrapper, so `cmd` keeps its own defaults:
`capture_output=True`, `synchronous=True`, and `raise_on_error=True` unless
the caller overrides it in kwargs, modelled as the explicit
`raise_on_error` argument). On a truthy returncode return `None`; otherwise
`json.loads(out.lstrip())`, modelled by the lstripped raw text. -/
def Terraform.output (t : Terraform) (fs : FS) (env : Exec) (args : List String)
    (kwargs : List (String × OptionValue)) (capture_output : Bool) (raise_on_error : Bool) :
    OutputOutcome :=
  let kwargs2 := dictSet kwargs "json" OptionValue.flagged
  if capture_output = false then
    OutputOutcome.raises (PyError.valueError "capture_output is required for this method")
  else
    match (t.cmd fs env "output" args kwargs2 CaptureMode.capture raise_on_error true).result with
    | PyOutcome.raises e => OutputOutcome.raises e
    | PyOutcome.returns ret out _ =>
      if pyTruthyOptInt ret then OutputOutcome.returnsNone
      else
        match out with
        | some s => OutputOutcome.returnsJson (pyLstrip s)
        | none => OutputOutcome.raises (PyError.pyException "AttributeError")

/-- `Terraform._generate_default_args`. -/
def Terraform.generate_default_args (dir_or_plan : Option String) : List String :=
  match dir_or_plan with
  | some d => if d = "" then [] else [d]
  | none => []

/-- `Terraform._generate_default_options`: the default mapping merged with
the caller overrides, overrides winning key-for-key. -/
def Terraform.generate_default_options (t : Terraform)
    (input_options : List (String × OptionValue)) : List (String × OptionValue) :=
  dictMerge
    [("state", t.state), ("target", t.targets), ("var", t.vars),
     ("var_file", t.var_file), ("parallelism", t.parallelism),
     ("no_color", OptionValue.flagged), ("input", OptionValue.bool false)]
    input_options

/-- `Terraform.plan`: set `detailed_exitcode` (default `IsFlagged`), merge
the defaults, and run `cmd("plan", ...)`. `kwargs` models the option kwargs
only; the execution-control keywords keep the `cmd` defaults. -/
def Terraform.plan (t : Terraform) (fs : FS) (env : Exec) (dir_or_plan : Option String)
    (detailed_exitcode : OptionValue) (kwargs : List (String × OptionValue)) : CmdResult :=
  let options := dictSet kwargs "detailed_exitcode" detailed_exitcode
  let options := t.generate_default_options options
  let args := Terraform.generate_default_args dir_or_plan
  t.cmd fs env "plan" args options CaptureMode.capture true true

/-- `Terraform.apply`: when `skip_plan` is false the method returns
`self.plan(dir_or_plan=dir_or_plan, **kwargs)` at once (so `plan` gets its
default `detailed_exitcode=IsFlagged` and the `input`/`no_color` arguments
of `apply` are dropped); otherwise it merges its defaults and runs
`cmd("apply", ...)`. -/
def Terraform.apply (t : Terraform) (fs : FS) (env : Exec) (dir_or_plan : Option String)
    (inp : Bool) (skip_plan : Bool) (no_color : OptionValue)
    (kwargs : List (String × OptionValue)) : CmdResult :=
  if skip_plan = false then
    t.plan fs env dir_or_plan OptionValue.flagged kwargs
  else
    let dflt := dictSet (dictSet kwargs "input" (OptionValue.bool inp)) "no_color" no_color
    let option_dict := t.generate_default_options dflt
    let args := Terraform.generate_default_args dir_or_plan
    t.cmd fs env "apply" args option_dict CaptureMode.capture true true

/-- The invariant relating the tracker to the filesystem: tracked names are
distinct, present on disk, and below the fresh-name counter. It holds for a
fresh tracker and is preserved by `create`, and it makes `clean_up`
succeed. -/
def goodState (vf : VariableFiles) (fs : FS) : Prop :=
  vf.tracked.Nodup ∧ ∀ n ∈ vf.tracked, n ∈ fs.disk ∧ n < fs.nextName

instance (vf : VariableFiles) (fs : FS) : Decidable (goodState vf fs) := by
  unfold goodState
  exact inferInstance

/-- A wrapper object with all defaults empty, used as concrete input for
witnesses and counterexamples. -/
def tf0 : Terraform :=
  ⟨"terraform", OptionValue.pyNone, OptionValue.list [], OptionValue.dict [],
    OptionValue.pyNone, OptionValue.pyNone, none, ⟨[]⟩⟩

/-- An empty filesystem slice. -/
def fs0 : FS :=
  ⟨[], 0⟩

/-- A run that succeeds with exit code 0. -/
def envOk0 : Exec :=
  ⟨false, false, 0, "out", "err", false, 7⟩

/-- A run whose child exits with code 1. -/
def envFail1 : Exec :=
  ⟨false, false, 1, "out", "err", false, 7⟩

/-- A run whose child is killed by signal 9 (`returncode` is `-9`). -/
def envKilled : Exec :=
  ⟨false, false, -9, "", "", false, 7⟩

/-- A run where `Popen` itself raises (missing binary). -/
def envSpawnFail : Exec :=
  ⟨true, false, 0, "", "", false, 7⟩

/-- A kwargs mapping holding one non-empty var map. -/
def kwVar : List (String × OptionValue) :=
  [("var", OptionValue.dict [("a", "b")])]


/-- C4: an option named var holding an empty map emits no token and creates
no temp file; holding a non-empty map it emits exactly one var-file token
pointing at the one temp file created, whose JSON payload equals the map. -/
theorem var_map_option_encoding (vf : VariableFiles) (fs : FS) (m : List (String × String)) :
    encodeOption vf fs "var" (OptionValue.dict []) = (vf, fs, []) ∧
    (m ≠ [] →
      encodeOption vf fs "var" (OptionValue.dict m) =
        (⟨vf.files ++ [⟨fs.nextName, m⟩]⟩, ⟨fs.disk ++ [fs.nextName], fs.nextName + 1⟩,
         ["-var-file=" ++ toString fs.nextName])) := by
  refine ⟨rfl, ?_⟩
  intro hm
  match m, hm with
  | (k, v) :: rest, _ => rfl

/-- Witness for C4 at the concrete map of the spec example. -/
theorem var_map_option_encoding_witness :
    encodeOption ⟨[]⟩ fs0 "var" (OptionValue.dict [("a", "b")]) =
      (⟨[⟨0, [("a", "b")]⟩]⟩, ⟨[0], 1⟩, ["-var-file=0"]) := by
  have h := (var_map_option_encoding ⟨[]⟩ fs0 [("a", "b")]).2 (by decide)
  simpa [fs0] using h

/-- C6: a sequence-valued option emits one dash-name-equals-element token
per element, in sequence order, and nothing for the empty sequence. -/
theorem sequence_option_encoding (vf : VariableFiles) (fs : FS) (name : String)
    (l : List String) :
    encodeOption vf fs name (OptionValue.list l) =
      (vf, fs, l.map (fun v => "-" ++ normalizeOption name ++ "=" ++ v)) ∧
    encodeOption vf fs name (OptionValue.list []) = (vf, fs, []) :=
  ⟨rfl, rfl⟩

/-- C7: the Flagged sentinel emits the bare dash-name token, an absent value
or the NotFlagged sentinel emits nothing, and a boolean emits the literal
strings true or false. -/
theorem flag_and_bool_option_encoding (vf : VariableFiles) (fs : FS) (name : String)
    (b : Bool) :
    encodeOption vf fs name OptionValue.flagged = (vf, fs, ["-" ++ normalizeOption name]) ∧
    encodeOption vf fs name OptionValue.pyNone = (vf, fs, []) ∧
    encodeOption vf fs name OptionValue.notFlagged = (vf, fs, []) ∧
    encodeOption vf fs name (OptionValue.bool b) =
      (vf, fs, ["-" ++ normalizeOption name ++ "=" ++ (if b then "true" else "false")]) :=
  ⟨rfl, rfl, rfl, rfl⟩

/-- C5: for a command in the compound-command set with a non-empty
positional list, the first positional argument is spliced directly after the
command tokens and the remaining positional arguments trail, in order, after
the encoded options. -/
theorem compound_first_arg_spliced (bin c a : String) (rest : List String)
    (kwargs : List (String × OptionValue)) (vf vf2 : VariableFiles) (fs fs2 : FS)
    (opts : List String)
    (hc : COMMAND_WITH_SUBCOMMANDS.contains c = true)
    (henc : encodeOptions vf fs kwargs = (vf2, fs2, opts)) :
    generate_cmd_string bin c (a :: rest) kwargs vf fs =
      Except.ok (((bin :: pySplit c) ++ [a]) ++ opts ++ rest, vf2, fs2) := by
  simp only [generate_cmd_string, hc, if_true, henc]

/-- Witness for C5 at the workspace example of the spec. -/
theorem compound_first_arg_spliced_witness :
    generate_cmd_string "terraform" "workspace" ["select", "staging"] [] ⟨[]⟩ fs0 =
      Except.ok ((("terraform" :: pySplit "workspace") ++ ["select"]) ++ [] ++ ["staging"],
        ⟨[]⟩, fs0) :=
  compound_first_arg_spliced "terraform" "workspace" "select" ["staging"] [] ⟨[]⟩ ⟨[]⟩
    fs0 fs0 [] (by decide) rfl

/-- A fresh tracker satisfies the tracker-filesystem invariant. -/
lemma goodState_nil (fs : FS) : goodState ⟨[]⟩ fs := by
  constructor
  · simp [VariableFiles.tracked]
  · intro n hn
    simp [VariableFiles.tracked] at hn

/-- The unlink loop succeeds when the tracked names are distinct and all
present on disk. -/
lemma cleanUpAux_ok_of_mem (files : List TempFile) :
    ∀ fs : FS, (files.map TempFile.name).Nodup →
      (∀ f ∈ files, f.name ∈ fs.disk) →
      ∃ fs2 : FS, VariableFiles.cleanUpAux files fs = Except.ok fs2 := by
  induction files with
  | nil =>
    intro fs _ _
    exact ⟨fs, rfl⟩
  | cons f rest ih =>
    intro fs hnd hmem
    have hf : f.name ∈ fs.disk := hmem f (List.mem_cons_self f rest)
    have hnd2 : (rest.map TempFile.name).Nodup := by
      simp only [List.map_cons, List.nodup_cons] at hnd
      exact hnd.2
    have hnotin : f.name ∉ rest.map TempFile.name := by
      simp only [List.map_cons, List.nodup_cons] at hnd
      exact hnd.1
    have hmem2 : ∀ g ∈ rest, g.name ∈ (⟨fs.disk.erase f.name, fs.nextName⟩ : FS).disk := by
      intro g hg
      have hne : g.name ≠ f.name := by
        intro h
        exact hnotin (h ▸ List.mem_map_of_mem TempFile.name hg)
      exact (List.mem_erase_of_ne hne).mpr (hmem g (List.mem_cons_of_mem f hg))
    obtain ⟨fs2, h2⟩ := ih _ hnd2 hmem2
    refine ⟨fs2, ?_⟩
    simp only [VariableFiles.cleanUpAux, hf, if_true]
    exact h2

/-- `clean_up` succeeds and clears the tracking list when the tracked names
are distinct and all present on disk. -/
lemma clean_up_ok_of_mem (vf : VariableFiles) (fs : FS)
    (hnd : vf.tracked.Nodup) (hmem : ∀ n ∈ vf.tracked, n ∈ fs.disk) :
    ∃ fs2, VariableFiles.clean_up vf fs = CleanupResult.ok ⟨[]⟩ fs2 := by
  obtain ⟨fs2, h2⟩ := cleanUpAux_ok_of_mem vf.files fs hnd
    (fun f hf => hmem f.name (List.mem_map_of_mem TempFile.name hf))
  refine ⟨fs2, ?_⟩
  simp [VariableFiles.clean_up, h2]

/-- `create` preserves the tracker-filesystem invariant. -/
lemma create_good (vf : VariableFiles) (fs : FS) (m : List (String × String))
    (h : goodState vf fs) :
    goodState ⟨vf.files ++ [⟨fs.nextName, m⟩]⟩ ⟨fs.disk ++ [fs.nextName], fs.nextName + 1⟩ := by
  obtain ⟨hnd, hmem⟩ := h
  have hnames : (⟨vf.files ++ [⟨fs.nextName, m⟩]⟩ : VariableFiles).tracked
      = vf.tracked ++ [fs.nextName] := by
    simp [VariableFiles.tracked]
  constructor
  · rw [hnames, List.nodup_append]
    refine ⟨hnd, List.nodup_singleton _, ?_⟩
    intro a ha hb
    have hb2 : a = fs.nextName := by simpa using hb
    rw [hb2] at ha
    exact absurd (hmem fs.nextName ha).2 (lt_irrefl _)
  · rw [hnames]
    intro n hn
    rcases List.mem_append.mp hn with h1 | h2
    · obtain ⟨hd, hlt⟩ := hmem n h1
      exact ⟨List.mem_append_left _ hd, Nat.lt_succ_of_lt hlt⟩
    · have hn2 : n = fs.nextName := by simpa using h2
      rw [hn2]
      exact ⟨List.mem_append_right _ (by simp), Nat.lt_succ_self _⟩

/-- One step of the option loop preserves the tracker-filesystem
invariant. -/
lemma encodeOption_good (vf : VariableFiles) (fs : FS) (name : String) (v : OptionValue)
    (h : goodState vf fs) :
    goodState (encodeOption vf fs name v).1 (encodeOption vf fs name v).2.1 := by
  cases v with
  | dict m =>
    simp only [encodeOption]
    split
    · exact h
    · split
      · cases m with
        | nil => exact h
        | cons kv rest =>
          simp only [VariableFiles.create]
          exact create_good vf fs (kv :: rest) h
      · exact h
  | flagged => exact h
  | notFlagged => exact h
  | pyNone => exact h
  | bool b => exact h
  | str s => exact h
  | list l => exact h

/-- The whole option loop preserves the tracker-filesystem invariant. -/
lemma encodeOptions_good (kwargs : List (String × OptionValue)) :
    ∀ vf fs, goodState vf fs →
      goodState (encodeOptions vf fs kwargs).1 (encodeOptions vf fs kwargs).2.1 := by
  induction kwargs with
  | nil =>
    intro vf fs h
    exact h
  | cons kv rest ih =>
    intro vf fs h
    obtain ⟨k, v⟩ := kv
    have h1 := encodeOption_good vf fs k v h
    rcases he : encodeOption vf fs k v with ⟨vf1, fs1, toks⟩
    rw [he] at h1
    have h2 := ih vf1 fs1 h1
    rcases hes : encodeOptions vf1 fs1 rest with ⟨vf2, fs2, more⟩
    rw [hes] at h2
    simp only [encodeOptions, he, hes]
    exact h2

/-- When the command is not compound, or some positional argument exists,
argument generation succeeds and its final tracker and filesystem are those
of the option loop. -/
lemma generate_ok (bin c : String) (args : List String)
    (kwargs : List (String × OptionValue)) (vf : VariableFiles) (fs : FS)
    (h : COMMAND_WITH_SUBCOMMANDS.contains c = false ∨ args ≠ []) :
    ∃ cmds, generate_cmd_string bin c args kwargs vf fs =
      Except.ok (cmds, (encodeOptions vf fs kwargs).1, (encodeOptions vf fs kwargs).2.1) := by
  rcases he : encodeOptions vf fs kwargs with ⟨vf2, fs2, opts⟩
  by_cases hc : COMMAND_WITH_SUBCOMMANDS.contains c = true
  · rcases h with h1 | h2
    · rw [h1] at hc
      cases hc
    · cases args with
      | nil => exact absurd rfl h2
      | cons a rest =>
        have hmem : c ∈ COMMAND_WITH_SUBCOMMANDS := by simpa using hc
        refine ⟨((bin :: pySplit c) ++ [a]) ++ opts ++ rest, ?_⟩
        simp [generate_cmd_string, hmem, he]
  · have hnot : c ∉ COMMAND_WITH_SUBCOMMANDS := by simpa using hc
    refine ⟨(bin :: pySplit c) ++ opts ++ args, ?_⟩
    simp [generate_cmd_string, hnot, he]

/-- Whenever argument generation succeeds, the token list handed to `Popen`
is recorded unchanged, on every path through `cmd`. -/
lemma cmd_spawned_of_gen (t : Terraform) (fs : FS) (env : Exec) (c : String)
    (args : List String) (kwargs : List (String × OptionValue)) (cap : CaptureMode)
    (roe sync : Bool) (cmds : List String) (vf1 : VariableFiles) (fs1 : FS)
    (hg : generate_cmd_string t.terraform_bin_path c args kwargs t.temp_var_files fs =
      Except.ok (cmds, vf1, fs1)) :
    (t.cmd fs env c args kwargs cap roe sync).spawned = some cmds := by
  simp only [Terraform.cmd, hg]
  repeat' split
  all_goals rfl

/-- The value of `cmd` on the normal synchronous path: generation succeeds,
the child is spawned and waited for, the state reload (if any) does not
raise, and cleanup succeeds. -/
lemma cmd_normal_path (t : Terraform) (fs : FS) (env : Exec) (c : String)
    (args : List String) (kwargs : List (String × OptionValue)) (cap : CaptureMode)
    (roe : Bool) (cmds : List String) (vf1 : VariableFiles) (fs1 fs2 : FS)
    (hg : generate_cmd_string t.terraform_bin_path c args kwargs t.temp_var_files fs =
      Except.ok (cmds, vf1, fs1))
    (hclean : VariableFiles.clean_up vf1 fs1 = CleanupResult.ok ⟨[]⟩ fs2)
    (hspawn : env.spawnFails = false) (hcomm : env.commFails = false)
    (hstate : env.retCode = 0 → env.stateReadFails = false) :
    t.cmd fs env c args kwargs cap roe true =
      ⟨(if 0 < env.retCode ∧ roe = true then
          PyOutcome.raises (PyError.terraformCommandError env.retCode (joinSpace cmds)
            (if cap = CaptureMode.capture then some env.outBytes else none)
            (if cap = CaptureMode.capture then some env.errBytes else none))
        else
          PyOutcome.returns (some env.retCode)
            (if cap = CaptureMode.capture then some env.outBytes else none)
            (if cap = CaptureMode.capture then some env.errBytes else none)),
        (if env.retCode = 0 then some env.diskState else t.tfstate),
        ⟨[]⟩, fs2, some cmds, (if env.retCode = 0 then 1 else 0), 1⟩ := by
  have hcond : ¬ (env.retCode = 0 ∧ env.stateReadFails = true) := by
    rintro ⟨h0, hs⟩
    rw [hstate h0] at hs
    cases hs
  simp only [Terraform.cmd, hg, hspawn, hcomm, Bool.not_true, Bool.false_eq_true,
    if_false, if_neg hcond, hclean]
  split <;> rfl

/-- Successful argument generation preserves the tracker-filesystem
invariant into its result state. -/
lemma generate_good (bin c : String) (args : List String)
    (kwargs : List (String × OptionValue)) (vf : VariableFiles) (fs : FS)
    (cmds : List String) (vf1 : VariableFiles) (fs1 : FS)
    (hgood : goodState vf fs)
    (hg : generate_cmd_string bin c args kwargs vf fs = Except.ok (cmds, vf1, fs1)) :
    goodState vf1 fs1 := by
  have h2 := encodeOptions_good kwargs vf fs hgood
  rcases he : encodeOptions vf fs kwargs with ⟨vf2, fs2, opts⟩
  rw [he] at h2
  unfold generate_cmd_string at hg
  split at hg
  · cases args with
    | nil => cases hg
    | cons a rest =>
      rw [he] at hg
      simp only [Except.ok.injEq, Prod.mk.injEq] at hg
      obtain ⟨-, ha, hb⟩ := hg
      rw [← ha, ← hb]
      exact h2
  · rw [he] at hg
    simp only [Except.ok.injEq, Prod.mk.injEq] at hg
    obtain ⟨-, ha, hb⟩ := hg
    rw [← ha, ← hb]
    exact h2

/-- C1 (amended): on a synchronous invocation in which spawning, waiting
and the state reload do not raise, `clean_up` is invoked exactly once
regardless of the exit code and of whether `TerraformCommandError` is
raised, and afterwards the tracked temp-file set is empty. The original
claim, cleanup on every exit path including exceptions, fails: see the
counterexample, where `Popen` raising skips cleanup entirely. -/
theorem cmd_cleanup_exactly_once (t : Terraform) (fs : FS) (env : Exec) (c : String)
    (args : List String) (kwargs : List (String × OptionValue)) (cap : CaptureMode)
    (roe : Bool)
    (hgood : goodState t.temp_var_files fs)
    (hspawn : env.spawnFails = false) (hcomm : env.commFails = false)
    (hstate : env.retCode = 0 → env.stateReadFails = false)
    (hargs : COMMAND_WITH_SUBCOMMANDS.contains c = false ∨ args ≠ []) :
    (t.cmd fs env c args kwargs cap roe true).cleanUpCalls = 1 ∧
    (t.cmd fs env c args kwargs cap roe true).vf = ⟨[]⟩ := by
  obtain ⟨cmds, hg⟩ := generate_ok t.terraform_bin_path c args kwargs t.temp_var_files fs hargs
  have hgood1 := generate_good _ _ _ _ _ _ _ _ _ hgood hg
  obtain ⟨fs2, hclean⟩ := clean_up_ok_of_mem _ _ hgood1.1 (fun n hn => (hgood1.2 n hn).1)
  rw [cmd_normal_path t fs env c args kwargs cap roe cmds _ _ fs2 hg hclean hspawn hcomm hstate]
  exact ⟨rfl, rfl⟩

/-- Witness for C1 on a successful run that created one temp var file. -/
theorem cmd_cleanup_exactly_once_witness :
    (tf0.cmd fs0 envOk0 "apply" [] kwVar CaptureMode.capture true true).cleanUpCalls = 1 ∧
    (tf0.cmd fs0 envOk0 "apply" [] kwVar CaptureMode.capture true true).vf = ⟨[]⟩ :=
  cmd_cleanup_exactly_once tf0 fs0 envOk0 "apply" [] kwVar CaptureMode.capture true
    (by decide) (by decide) (by decide) (by decide) (Or.inl (by decide))

/-- Counterexample to C1 as stated: when `Popen` raises (missing binary),
the invocation terminates by exception after the var-file was created, the
cleanup step is never reached, and the temp file leaks. -/
theorem cmd_exception_skips_cleanup :
    (tf0.cmd fs0 envSpawnFail "apply" [] kwVar CaptureMode.capture true true).cleanUpCalls = 0 ∧
    (tf0.cmd fs0 envSpawnFail "apply" [] kwVar CaptureMode.capture true true).vf =
      ⟨[⟨0, [("a", "b")]⟩]⟩ := by
  decide

/-- C2 (amended): on a synchronous invocation whose run completes without
exception, a strictly positive exit code with `raise_on_error` true raises
`TerraformCommandError` carrying the same exit code, joined command line,
and captured streams as the tuple returned with `raise_on_error` false; a
non-positive return code (including the negative codes of signal-killed
children) or `raise_on_error` false returns the tuple with no error. The
original claim said every nonzero exit code raises: the counterexample
shows a returncode of -9 is returned, not raised. -/
theorem cmd_raise_on_error_positive (t : Terraform) (fs : FS) (env : Exec) (c : String)
    (args : List String) (kwargs : List (String × OptionValue)) (cap : CaptureMode)
    (hgood : goodState t.temp_var_files fs)
    (hspawn : env.spawnFails = false) (hcomm : env.commFails = false)
    (hstate : env.retCode = 0 → env.stateReadFails = false)
    (hargs : COMMAND_WITH_SUBCOMMANDS.contains c = false ∨ args ≠ []) :
    ∃ cl out err,
      (t.cmd fs env c args kwargs cap false true).result =
        PyOutcome.returns (some env.retCode) out err ∧
      (0 < env.retCode →
        (t.cmd fs env c args kwargs cap true true).result =
          PyOutcome.raises (PyError.terraformCommandError env.retCode cl out err)) ∧
      (env.retCode ≤ 0 →
        (t.cmd fs env c args kwargs cap true true).result =
          PyOutcome.returns (some env.retCode) out err) := by
  obtain ⟨cmds, hg⟩ := generate_ok t.terraform_bin_path c args kwargs t.temp_var_files fs hargs
  have hgood1 := generate_good _ _ _ _ _ _ _ _ _ hgood hg
  obtain ⟨fs2, hclean⟩ := clean_up_ok_of_mem _ _ hgood1.1 (fun n hn => (hgood1.2 n hn).1)
  refine ⟨joinSpace cmds,
    (if cap = CaptureMode.capture then some env.outBytes else none),
    (if cap = CaptureMode.capture then some env.errBytes else none), ?_, ?_, ?_⟩
  · rw [cmd_normal_path t fs env c args kwargs cap false cmds _ _ fs2 hg hclean hspawn hcomm hstate]
    dsimp only
    rw [if_neg (by rintro ⟨-, hf⟩; cases hf)]
  · intro hpos
    rw [cmd_normal_path t fs env c args kwargs cap true cmds _ _ fs2 hg hclean hspawn hcomm hstate]
    dsimp only
    rw [if_pos ⟨hpos, rfl⟩]
  · intro hle
    rw [cmd_normal_path t fs env c args kwargs cap true cmds _ _ fs2 hg hclean hspawn hcomm hstate]
    dsimp only
    rw [if_neg (by rintro ⟨hpos, -⟩; exact absurd hpos (not_lt.mpr hle))]

/-- Witness for C2 on a run exiting with code 1. -/
theorem cmd_raise_on_error_positive_witness :
    ∃ cl out err,
      (tf0.cmd fs0 envFail1 "apply" [] [] CaptureMode.capture false true).result =
        PyOutcome.returns (some envFail1.retCode) out err ∧
      (0 < envFail1.retCode →
        (tf0.cmd fs0 envFail1 "apply" [] [] CaptureMode.capture true true).result =
          PyOutcome.raises (PyError.terraformCommandError envFail1.retCode cl out err)) ∧
      (envFail1.retCode ≤ 0 →
        (tf0.cmd fs0 envFail1 "apply" [] [] CaptureMode.capture true true).result =
          PyOutcome.returns (some envFail1.retCode) out err) :=
  cmd_raise_on_error_positive tf0 fs0 envFail1 "apply" [] [] CaptureMode.capture
    (by decide) (by decide) (by decide) (by decide) (Or.inl (by decide))

/-- Counterexample to C2 as stated: the child is killed by signal 9, the
return code -9 is nonzero, `raise_on_error` is true, yet the tuple is
returned and nothing is raised, because the source only raises on codes
strictly greater than zero. -/
theorem cmd_negative_exit_no_raise :
    (tf0.cmd fs0 envKilled "apply" [] [] CaptureMode.capture true true).result =
      PyOutcome.returns (some (-9)) (some "") (some "") ∧ (-9 : Int) ≠ 0 := by
  decide

/-- C8: on a synchronous invocation in which the child was spawned and
waited for, exit code 0 invokes the state-reload collaborator exactly once,
and a nonzero exit code never invokes it and leaves the stored state
unchanged. -/
theorem cmd_state_reload_discipline (t : Terraform) (fs : FS) (env : Exec) (c : String)
    (args : List String) (kwargs : List (String × OptionValue)) (cap : CaptureMode)
    (roe : Bool)
    (hspawn : env.spawnFails = false) (hcomm : env.commFails = false)
    (hargs : COMMAND_WITH_SUBCOMMANDS.contains c = false ∨ args ≠ []) :
    (env.retCode = 0 → (t.cmd fs env c args kwargs cap roe true).readStateCalls = 1) ∧
    (env.retCode ≠ 0 → (t.cmd fs env c args kwargs cap roe true).readStateCalls = 0 ∧
        (t.cmd fs env c args kwargs cap roe true).tfstate = t.tfstate) := by
  obtain ⟨cmds, hg⟩ := generate_ok t.terraform_bin_path c args kwargs t.temp_var_files fs hargs
  simp only [Terraform.cmd, hg, hspawn, hcomm, Bool.not_true, Bool.false_eq_true, if_false]
  constructor
  · intro h0
    by_cases hs : env.stateReadFails = true
    · rw [if_pos ⟨h0, hs⟩]
    · rw [if_neg (fun hh => hs hh.2)]
      repeat' split
      all_goals simp [h0]
  · intro h0
    have hne : ¬ (env.retCode = 0 ∧ env.stateReadFails = true) := fun hh => h0 hh.1
    refine ⟨?_, ?_⟩ <;>
      · rw [if_neg hne]
        repeat' split
        all_goals simp_all

/-- Witness for C8 on a successful run and on a failing run. -/
theorem cmd_state_reload_discipline_witness :
    ((envOk0.retCode = 0 →
        (tf0.cmd fs0 envOk0 "plan" [] [] CaptureMode.capture true true).readStateCalls = 1) ∧
      (envOk0.retCode ≠ 0 →
        (tf0.cmd fs0 envOk0 "plan" [] [] CaptureMode.capture true true).readStateCalls = 0 ∧
        (tf0.cmd fs0 envOk0 "plan" [] [] CaptureMode.capture true true).tfstate = tf0.tfstate)) ∧
    ((envFail1.retCode = 0 →
        (tf0.cmd fs0 envFail1 "plan" [] [] CaptureMode.capture true true).readStateCalls = 1) ∧
      (envFail1.retCode ≠ 0 →
        (tf0.cmd fs0 envFail1 "plan" [] [] CaptureMode.capture true true).readStateCalls = 0 ∧
        (tf0.cmd fs0 envFail1 "plan" [] [] CaptureMode.capture true true).tfstate = tf0.tfstate)) :=
  ⟨cmd_state_reload_discipline tf0 fs0 envOk0 "plan" [] [] CaptureMode.capture true
      (by decide) (by decide) (Or.inl (by decide)),
    cmd_state_reload_discipline tf0 fs0 envFail1 "plan" [] [] CaptureMode.capture true
      (by decide) (by decide) (Or.inl (by decide))⟩

/-- C3: evaluation of the `output` shim at a child exiting with code 1.
Under the default `raise_on_error=True` that `cmd` applies, the nonzero exit
raises `TerraformCommandError` out of `output`, contradicting the claim and
the method docstring (return None if an error occurred); the None return
only happens when the caller overrides `raise_on_error` to false. -/
theorem output_nonzero_exit_default_raises :
    Terraform.output tf0 fs0 envFail1 [] [] true true =
      OutputOutcome.raises (PyError.terraformCommandError 1 "terraform output -json"
        (some "out") (some "err")) ∧
    Terraform.output tf0 fs0 envFail1 [] [] true false = OutputOutcome.returnsNone := by
  decide

/-- Counterexample to C9 as stated: a tracked file that was already removed
from disk makes `clean_up` raise `FileNotFoundError`, and the tracking list
is not cleared. -/
theorem clean_up_missing_file_raises :
    VariableFiles.clean_up ⟨[⟨0, [("a", "b")]⟩]⟩ ⟨[], 1⟩ =
      CleanupResult.raised "FileNotFoundError" ⟨[⟨0, [("a", "b")]⟩]⟩ ⟨[], 1⟩ := by
  decide

/-- C9 (amended): `clean_up` never raises when the tracked files are
distinct and all still exist on disk; it removes them, clears the tracking
list, and a second `clean_up` afterwards is a harmless no-op (so cleanup on
an empty tracker is always safe). But it is not tolerant of a tracked file
already removed from disk: there `os.unlink` raises, as the counterexample
shows. -/
theorem clean_up_ok_and_idempotent_when_files_exist (vf : VariableFiles) (fs : FS)
    (hnd : vf.tracked.Nodup) (hmem : ∀ n ∈ vf.tracked, n ∈ fs.disk) :
    ∃ fs2, VariableFiles.clean_up vf fs = CleanupResult.ok ⟨[]⟩ fs2 ∧
      VariableFiles.clean_up ⟨[]⟩ fs2 = CleanupResult.ok ⟨[]⟩ fs2 := by
  obtain ⟨fs2, h⟩ := clean_up_ok_of_mem vf fs hnd hmem
  exact ⟨fs2, h, rfl⟩

/-- Witness for C9 with one tracked file present on disk. -/
theorem clean_up_ok_and_idempotent_witness :
    ∃ fs2, VariableFiles.clean_up ⟨[⟨0, [("a", "b")]⟩]⟩ ⟨[0], 1⟩ = CleanupResult.ok ⟨[]⟩ fs2 ∧
      VariableFiles.clean_up ⟨[]⟩ fs2 = CleanupResult.ok ⟨[]⟩ fs2 :=
  clean_up_ok_and_idempotent_when_files_exist ⟨[⟨0, [("a", "b")]⟩]⟩ ⟨[0], 1⟩
    (by decide) (by decide)

/-- C10: `apply` with `skip_plan` false runs no apply command at all: the
call is exactly `plan` with the same directory argument and options, and the
token list actually spawned is a plan command line. -/
theorem apply_skip_plan_false_delegates (t : Terraform) (fs : FS) (env : Exec)
    (d : Option String) (inp : Bool) (nc : OptionValue)
    (kwargs : List (String × OptionValue)) :
    t.apply fs env d inp false nc kwargs = t.plan fs env d OptionValue.flagged kwargs ∧
    ∃ rest, (t.apply fs env d inp false nc kwargs).spawned =
      some (t.terraform_bin_path :: "plan" :: rest) := by
  have h1 : t.apply fs env d inp false nc kwargs = t.plan fs env d OptionValue.flagged kwargs :=
    rfl
  refine ⟨h1, ?_⟩
  rw [h1]
  rcases he : encodeOptions t.temp_var_files fs
      (t.generate_default_options (dictSet kwargs "detailed_exitcode" OptionValue.flagged))
    with ⟨vf2, fs2, opts⟩
  have hnot : "plan" ∉ COMMAND_WITH_SUBCOMMANDS := by decide
  have hps : pySplit "plan" = ["plan"] := rfl
  have hg : generate_cmd_string t.terraform_bin_path "plan"
      (Terraform.generate_default_args d)
      (t.generate_default_options (dictSet kwargs "detailed_exitcode" OptionValue.flagged))
      t.temp_var_files fs =
      Except.ok (t.terraform_bin_path :: "plan" ::
        (opts ++ Terraform.generate_default_args d), vf2, fs2) := by
    simp [generate_cmd_string, hnot, he, hps]
  refine ⟨opts ++ Terraform.generate_default_args d, ?_⟩
  exact cmd_spawned_of_gen t fs env "plan" (Terraform.generate_default_args d) _
    CaptureMode.capture true true _ vf2 fs2 hg
